import Mathlib

/-
Verification of the MSF container layer and the CodeView C13 subsection
walker of the raw_pdb repository, against its natural-language specification.

Source files embedded here:
  - src/PDB_ModuleLineStream.h   (ModuleLineStream::ForEachSection,
    ForEachLinesBlock, ForEachFileChecksum)
  - src/PDB_RawFile.cpp          (RawFile::RawFile, RawFile::operator=)

Machine integers are modelled as Nat with explicit `% 4294967296` where the
source computes in uint32. Offsets in the walker are size_t (64-bit); stream
sizes are bounded by 32 bits, so size_t arithmetic on them cannot wrap and is
modelled as plain Nat.
-/

namespace RawPdb

/-- Modelled from the spec: `PDB::ConvertSizeToBlockCount` lives in
PDB_Util.h, which is not under src. Spec 4.1: `convertSizeToBlockCount(size,
blockSize) = (size + blockSize - 1) / blockSize`, computed in uint32
arithmetic (both arguments are uint32), so the addition wraps modulo 2^32. -/
def ConvertSizeToBlockCount (sizeInBytes blockSize : Nat) : Nat :=
  (sizeInBytes + blockSize - 1) % 4294967296 / blockSize

/-- Modelled from the spec: `BitUtil::RoundUpToMultiple` lives in
Foundation/PDB_BitUtil.h, which is not under src. Spec 4.1:
`roundUpToMultiple(value, m) = (value + m - 1) & ~(m - 1)` with `m` a power of
two; for such `m` this equals `(value + m - 1) / m * m`. The walker only uses
`m = 4`. Offsets are size_t, modelled as Nat. -/
def RoundUpToMultiple (value multiple : Nat) : Nat :=
  (value + multiple - 1) / multiple * multiple

/-- CodeView::DBI::DebugSubsectionHeader: `{ uint32 kind; uint32 size; }`,
sizeof = 8 (spec 6). The walker reads it through
`m_stream.GetDataAtOffset<LineSection>(offset)`. -/
structure DebugSubsectionHeader where
  kind : Nat
  size : Nat

/-- State of a ModuleLineStream (PDB_ModuleLineStream.h lines 89-91):
`m_stream` is a CoalescedMSFStream, modelled by its size and by the
DebugSubsectionHeader that `GetDataAtOffset` yields at each byte offset;
`m_c13LineInfoOffset` is the starting offset passed to the constructor. -/
structure ModuleLineStreamModel where
  headerAt : Nat → DebugSubsectionHeader
  streamSize : Nat
  c13LineInfoOffset : Nat

/-- `RoundUpToMultiple value 4` never decreases its argument. -/
theorem le_roundUpToMultiple4 (value : Nat) : value ≤ RoundUpToMultiple value 4 := by
  unfold RoundUpToMultiple
  omega

/-- ModuleLineStream::ForEachSection (PDB_ModuleLineStream.h lines 26-39),
as the list of offsets at which the functor is invoked, starting from a given
`offset`. The loop body is
  `while (offset < m_stream.GetSize()) { ...; functor(section);
   offset = RoundUpToMultiple(offset + 8 + section->header.size, 4); }`.
The loop always terminates because each step advances by at least 8 bytes. -/
def forEachSectionFrom (s : ModuleLineStreamModel) (offset : Nat) : List Nat :=
  if h : offset < s.streamSize then
    offset ::
      forEachSectionFrom s (RoundUpToMultiple (offset + 8 + (s.headerAt offset).size) 4)
  else
    []
termination_by s.streamSize - offset
decreasing_by
  have h1 := le_roundUpToMultiple4 (offset + 8 + (s.headerAt offset).size)
  omega

/-- ModuleLineStream::ForEachSection entered at `m_c13LineInfoOffset`
(PDB_ModuleLineStream.h line 28). -/
def forEachSection (s : ModuleLineStreamModel) : List Nat :=
  forEachSectionFrom s s.c13LineInfoOffset

/-- Stream for the C1 counterexample: 12 bytes, every header reads back
`size = 100`, iteration starts at offset 0. -/
def exStreamA : ModuleLineStreamModel :=
  { headerAt := fun _ => { kind := 242, size := 100 }
    streamSize := 12
    c13LineInfoOffset := 0 }

/-- Stream for the C7 counterexample: iteration starts at the unaligned
offset 2; the single header has size 0, so the section fits (2 + 8 = 10). -/
def exStreamB : ModuleLineStreamModel :=
  { headerAt := fun _ => { kind := 242, size := 0 }
    streamSize := 10
    c13LineInfoOffset := 2 }

/-- Stream used by witnesses: two zero-size sections at offsets 0 and 8. -/
def exStreamD : ModuleLineStreamModel :=
  { headerAt := fun _ => { kind := 242, size := 0 }
    streamSize := 12
    c13LineInfoOffset := 0 }

/-- Stream for the C9 witness: the start offset 7 is past the 5-byte stream. -/
def exStreamE : ModuleLineStreamModel :=
  { headerAt := fun _ => { kind := 242, size := 0 }
    streamSize := 5
    c13LineInfoOffset := 7 }

/-- The while-loops of ForEachLinesBlock (PDB_ModuleLineStream.h lines 53-60)
and ForEachFileChecksum (lines 77-84) share the shape
  `while (offset < headerEnd) { ...; offset = step(offset); }`;
only the step expression differs. `fuel` bounds the number of iterations:
the C++ loops can run forever (a zero-size record at an aligned offset makes
no progress), so the loop is not total and is embedded with explicit fuel.
Returns the final value of `offset`. -/
def iterateWhileLt (step : Nat → Nat) (headerEnd : Nat) : Nat → Nat → Nat
  | 0, offset => offset
  | fuel + 1, offset =>
    if offset < headerEnd then iterateWhileLt step headerEnd fuel (step offset)
    else offset

/-- Step of ForEachLinesBlock (line 59):
`offset = RoundUpToMultiple(offset + linesBlockHeader->size, 4)`, where
`blockSizeAt offset` models `GetDataAtOffset<LinesFileBlockHeader>(offset)->size`. -/
def linesBlockStep (blockSizeAt : Nat → Nat) (offset : Nat) : Nat :=
  RoundUpToMultiple (offset + blockSizeAt offset) 4

/-- Step of ForEachFileChecksum (line 83):
`offset = RoundUpToMultiple(offset + sizeof(FileChecksumHeader) +
fileChecksumHeader->checksumSize, 4)`. `fchHeaderSize` stands for
`sizeof(CodeView::DBI::FileChecksumHeader)` (declared in PDB_DBITypes.h,
not under src, so it is kept as a parameter); `checksumSizeAt offset` models
the `checksumSize` field read at `offset`. -/
def fileChecksumStep (fchHeaderSize : Nat) (checksumSizeAt : Nat → Nat) (offset : Nat) : Nat :=
  RoundUpToMultiple (offset + fchHeaderSize + checksumSizeAt offset) 4

/-- `headerEnd` as computed at PDB_ModuleLineStream.h lines 48 and 72:
`RoundUpToMultiple(offset + sizeof(DebugSubsectionHeader) + section->header.size, 4)`
with `offset = m_stream.GetPointerOffset(section)`. -/
def sectionHeaderEnd (sectionOffset headerSize : Nat) : Nat :=
  RoundUpToMultiple (sectionOffset + 8 + headerSize) 4

/-- Initial offset of ForEachLinesBlock (line 50):
`RoundUpToMultiple(offset + sizeof(DebugSubsectionHeader) + sizeof(LinesHeader), 4)`.
`linesHeaderSize` stands for `sizeof(CodeView::DBI::LinesHeader)` (declared in
PDB_DBITypes.h, not under src, so it is kept as a parameter). -/
def linesBlocksStart (sectionOffset linesHeaderSize : Nat) : Nat :=
  RoundUpToMultiple (sectionOffset + 8 + linesHeaderSize) 4

/-- Initial offset of ForEachFileChecksum (line 74):
`RoundUpToMultiple(offset + sizeof(DebugSubsectionHeader), 4)`. -/
def checksumsStart (sectionOffset : Nat) : Nat :=
  RoundUpToMultiple (sectionOffset + 8) 4

/-- Final offset of the ForEachLinesBlock loop on a section yielded at
`sectionOffset` whose DebugSubsectionHeader has size `headerSize`. -/
def forEachLinesBlockFinal (blockSizeAt : Nat → Nat)
    (sectionOffset headerSize linesHeaderSize fuel : Nat) : Nat :=
  iterateWhileLt (linesBlockStep blockSizeAt) (sectionHeaderEnd sectionOffset headerSize)
    fuel (linesBlocksStart sectionOffset linesHeaderSize)

/-- Final offset of the ForEachFileChecksum loop. -/
def forEachFileChecksumFinal (checksumSizeAt : Nat → Nat)
    (fchHeaderSize sectionOffset headerSize fuel : Nat) : Nat :=
  iterateWhileLt (fileChecksumStep fchHeaderSize checksumSizeAt)
    (sectionHeaderEnd sectionOffset headerSize) fuel (checksumsStart sectionOffset)

/-- Condition of the PDB_ASSERT at PDB_ModuleLineStream.h line 62:
`PDB_ASSERT(offset == headerEnd, "Mismatch between offset %zu and header end
%zu when reading lines blocks", offset, headerEnd)`. PDB_ASSERT aborts in
debug builds when its condition is false and compiles to nothing in release
builds; the function's return type carries no error. -/
def forEachLinesBlockAssertOk (blockSizeAt : Nat → Nat)
    (sectionOffset headerSize linesHeaderSize fuel : Nat) : Bool :=
  forEachLinesBlockFinal blockSizeAt sectionOffset headerSize linesHeaderSize fuel
    == sectionHeaderEnd sectionOffset headerSize

/-- Condition of the PDB_ASSERT at PDB_ModuleLineStream.h line 86 for the
file-checksum loop. -/
def forEachFileChecksumAssertOk (checksumSizeAt : Nat → Nat)
    (fchHeaderSize sectionOffset headerSize fuel : Nat) : Bool :=
  forEachFileChecksumFinal checksumSizeAt fchHeaderSize sectionOffset headerSize fuel
    == sectionHeaderEnd sectionOffset headerSize

/-- Modelled from the spec: the MalformedSubsection error of spec 7, carrying
the offending offset. The source has no such error value; this definition
follows the spec's words so it can be compared with the source behaviour. -/
def forEachLinesBlockSurfacing (blockSizeAt : Nat → Nat)
    (sectionOffset headerSize linesHeaderSize fuel : Nat) : Except Nat Nat :=
  let fin := forEachLinesBlockFinal blockSizeAt sectionOffset headerSize linesHeaderSize fuel
  if fin = sectionHeaderEnd sectionOffset headerSize then Except.ok fin else Except.error fin

/-- Modelled from the spec: the error-surfacing file-checksum walker of
spec 7, for comparison with the source behaviour. -/
def forEachFileChecksumSurfacing (checksumSizeAt : Nat → Nat)
    (fchHeaderSize sectionOffset headerSize fuel : Nat) : Except Nat Nat :=
  let fin := forEachFileChecksumFinal checksumSizeAt fchHeaderSize sectionOffset headerSize fuel
  if fin = sectionHeaderEnd sectionOffset headerSize then Except.ok fin else Except.error fin

/-- `TilesTo step headerEnd offset` says the records starting at `offset`
tile the section exactly: stepping from `offset` lands on `headerEnd` after
finitely many records, each starting strictly below `headerEnd`. This is the
well-formedness of a subsection in the data model of spec 3: each record of
length `size` is followed by the next at the rounded-up offset, and the
records exhaust the body exactly. -/
inductive TilesTo (step : Nat → Nat) (headerEnd : Nat) : Nat → Prop where
  | done : TilesTo step headerEnd headerEnd
  | step {offset : Nat} : offset < headerEnd → TilesTo step headerEnd (step offset) →
      TilesTo step headerEnd offset

/-- RawFile's parse of the stream directory (PDB_RawFile.cpp lines 101-118).
The coalesced directory stream is modelled by `dir`, the uint32 value that
`m_directoryStream.GetDataAtOffset<uint32_t>` returns at each byte offset.
`streamBlocksPtr dir blockSize i` is the byte offset into the directory held
in `m_streamBlocks[i]`: the cursor `indicesForCurrentBlock` starts at the
byte offset `sizeof(uint32_t) + sizeof(uint32_t) * m_streamCount` (line 105,
with `m_streamCount = dir 0` from line 101) and each loop iteration advances
it by `blockCount` uint32 entries, i.e. 4 bytes each (line 117). -/
def streamBlocksPtr (dir : Nat → Nat) (blockSize : Nat) : Nat → Nat
  | 0 => 4 + 4 * dir 0
  | i + 1 =>
    streamBlocksPtr dir blockSize i +
      4 * ConvertSizeToBlockCount (dir (4 + 4 * i)) blockSize

/-- `m_streamCount` read from directory byte offset 0 (PDB_RawFile.cpp line 101). -/
def dirStreamCount (dir : Nat → Nat) : Nat := dir 0

/-- `m_streamSizes[i]`: the uint32 array starting at directory byte offset
`sizeof(uint32_t)` (PDB_RawFile.cpp line 104). -/
def dirStreamSizes (dir : Nat → Nat) (i : Nat) : Nat := dir (4 + 4 * i)

/-- Total size of the coalesced directory stream constructed at
PDB_RawFile.cpp line 88: `GetDirectoryBlockCount(m_superBlock) *
m_superBlock->blockSize`, with GetDirectoryBlockCount (lines 20-25) equal to
`ConvertSizeToBlockCount(superBlock->directorySize, superBlock->blockSize)`. -/
def directoryStreamSize (directorySize blockSize : Nat) : Nat :=
  ConvertSizeToBlockCount directorySize blockSize * blockSize

/-- Little-endian uint32 read of four bytes at offset `o` of the image. -/
def readLE32 (byteAt : Nat → Nat) (o : Nat) : Nat :=
  byteAt o % 256 + 256 * (byteAt (o + 1) % 256) +
    65536 * (byteAt (o + 2) % 256) + 16777216 * (byteAt (o + 3) % 256)

/-- A caller-supplied in-memory byte image (spec 3). -/
structure ImageModel where
  length : Nat
  byteAt : Nat → Nat

/-- The 32-byte file magic of spec 6:
"Microsoft C/C++ MSF 7.00\r\n\x1ADS\0\0\0". -/
def pdbMagicBytes : List Nat :=
  [77, 105, 99, 114, 111, 115, 111, 102, 116, 32, 67, 47, 67, 43, 43, 32,
   77, 83, 70, 32, 55, 46, 48, 48, 13, 10, 26, 68, 83, 0, 0, 0]

/-- The distinct construction-time error kinds of spec 7 that RawFile::open
can produce. -/
inductive PdbErrorKind where
  | imageTooSmall
  | invalidSuperBlockMagic
  | invalidDirectoryBounds
deriving DecidableEq

/-- Modelled from the spec: the ImageTooSmall check of spec 7 ("image length
is less than one block or less than SuperBlock size"); the SuperBlock layout
of spec 6 ends at byte 56, and `blockSize` is the uint32 at byte offset 32. -/
def imageTooSmallB (img : ImageModel) : Bool :=
  decide (img.length < 56) || decide (img.length < readLE32 img.byteAt 32)

/-- Modelled from the spec: the magic-number prefix check of spec 4.2/6. -/
def magicOkB (img : ImageModel) : Bool :=
  (List.range 32).all fun k => img.byteAt k % 256 == pdbMagicBytes.getD k 256

/-- Modelled from the spec: the InvalidDirectoryBounds check of spec 7
("directory indices or directory blocks reference out-of-range block
indices"): the directory-indices block index (byte 52) and each of the
`directoryBlockCount` uint32 entries it points at must be below `blockCount`
(byte 40). `directorySize` is the uint32 at byte 44. -/
def dirBoundsOkB (img : ImageModel) : Bool :=
  let bs := readLE32 img.byteAt 32
  let bc := readLE32 img.byteAt 40
  let dsz := readLE32 img.byteAt 44
  let didx := readLE32 img.byteAt 52
  decide (didx < bc) &&
    (List.range (ConvertSizeToBlockCount dsz bs)).all fun k =>
      decide (readLE32 img.byteAt (didx * bs + 4 * k) < bc)

/-- A successfully opened RawFile: the SuperBlock fields parsed from the
image. All accessors on it are plain total functions. -/
structure RawFileOpened where
  blockSize : Nat
  blockCount : Nat
  directorySize : Nat
  directoryIndicesBlockIndex : Nat

/-- Modelled from the spec: `RawFile::open(image) -> RawFile | Error` of
spec 6/4.5. The validating caller of the RawFile constructor (PDB.cpp's
CreateRawFile/ValidateFile) is not under src; the constructor in
PDB_RawFile.cpp lines 85-119 itself performs no validation. Per spec 4.5,
construction is fallible at exactly three points, checked in order:
insufficient image length, magic mismatch, directory-bounds violation. -/
def rawFileOpen (img : ImageModel) : Except PdbErrorKind RawFileOpened :=
  if imageTooSmallB img then Except.error PdbErrorKind.imageTooSmall
  else if !magicOkB img then Except.error PdbErrorKind.invalidSuperBlockMagic
  else if !dirBoundsOkB img then Except.error PdbErrorKind.invalidDirectoryBounds
  else Except.ok
    { blockSize := readLE32 img.byteAt 32
      blockCount := readLE32 img.byteAt 40
      directorySize := readLE32 img.byteAt 44
      directoryIndicesBlockIndex := readLE32 img.byteAt 52 }

/-- Image for the C3 witness: 10 bytes of zeros, too small for a SuperBlock. -/
def imgEx : ImageModel :=
  { length := 10, byteAt := fun _ => 0 }

/-- The fields of PDB::RawFile (pointers modelled by their values; a null
pointer is 0, `m_streamCount` is a uint32). `m_directoryStream` is the
CoalescedMSFStream member, modelled opaquely by a value. -/
structure RawFileState where
  m_data : Nat
  m_superBlock : Nat
  m_directoryStream : Nat
  m_streamCount : Nat
  m_streamSizes : Nat
  m_streamBlocks : Nat
deriving DecidableEq

/-- Result of RawFile::operator= : the state of the assigned-to object, the
state of the moved-from object, and whether `PDB_DELETE_ARRAY(m_streamBlocks)`
released the assigned-to object's old block array. -/
structure MoveAssignResult where
  selfAfter : RawFileState
  otherAfter : RawFileState
  releasedOldBlocks : Bool
deriving DecidableEq

/-- PDB::RawFile::operator=(RawFile&&) (PDB_RawFile.cpp lines 59-80).
`selfAddr`/`otherAddr` model the addresses compared by `this != &other`
(line 61); `self`/`other` are the two objects' field states. When the guard
holds, the old m_streamBlocks array is deleted (line 63), every field is
moved from `other` (lines 65-70) and `other`'s pointers and count are nulled
(lines 72-76) — its m_directoryStream member is left to its own move
semantics and is modelled as copied. Otherwise nothing happens (line 79
returns *this). -/
def rawFileMoveAssign (selfAddr otherAddr : Nat) (self other : RawFileState) :
    MoveAssignResult :=
  if selfAddr ≠ otherAddr then
    { selfAfter := other
      otherAfter :=
        { other with
          m_data := 0
          m_superBlock := 0
          m_streamCount := 0
          m_streamSizes := 0
          m_streamBlocks := 0 }
      releasedOldBlocks := true }
  else
    { selfAfter := self, otherAfter := other, releasedOldBlocks := false }

/-- `RoundUpToMultiple value 4` is a multiple of 4. -/
theorem roundUpToMultiple4_mod (value : Nat) : RoundUpToMultiple value 4 % 4 = 0 := by
  unfold RoundUpToMultiple
  exact Nat.mul_mod_left _ 4

/-- Every offset yielded from `offset` is at least `offset`. -/
theorem forEachSectionFrom_mem_lower (s : ModuleLineStreamModel) (offset : Nat) :
    ∀ o ∈ forEachSectionFrom s offset, offset ≤ o := by
  induction offset using forEachSectionFrom.induct s with
  | case1 offset hlt ih =>
    intro o ho
    rw [forEachSectionFrom, dif_pos hlt] at ho
    rcases List.mem_cons.mp ho with h1 | h1
    · omega
    · have h2 := ih o h1
      have h3 := le_roundUpToMultiple4 (offset + 8 + (s.headerAt offset).size)
      omega
  | case2 offset hge =>
    intro o ho
    rw [forEachSectionFrom, dif_neg hge] at ho
    simp at ho

/-- Every yielded offset satisfies the loop guard `offset < m_stream.GetSize()`. -/
theorem forEachSectionFrom_mem_lt (s : ModuleLineStreamModel) (offset : Nat) :
    ∀ o ∈ forEachSectionFrom s offset, o < s.streamSize := by
  induction offset using forEachSectionFrom.induct s with
  | case1 offset hlt ih =>
    intro o ho
    rw [forEachSectionFrom, dif_pos hlt] at ho
    rcases List.mem_cons.mp ho with h1 | h1
    · omega
    · exact ih o h1
  | case2 offset hge =>
    intro o ho
    rw [forEachSectionFrom, dif_neg hge] at ho
    simp at ho

/-- Every yielded offset is either the starting offset or a rounded-up value,
hence a multiple of 4. -/
theorem forEachSectionFrom_mem_shape (s : ModuleLineStreamModel) (offset : Nat) :
    ∀ o ∈ forEachSectionFrom s offset, o = offset ∨ o % 4 = 0 := by
  induction offset using forEachSectionFrom.induct s with
  | case1 offset hlt ih =>
    intro o ho
    rw [forEachSectionFrom, dif_pos hlt] at ho
    rcases List.mem_cons.mp ho with h1 | h1
    · exact Or.inl h1
    · rcases ih o h1 with h2 | h2
      · right
        rw [h2]
        exact roundUpToMultiple4_mod _
      · exact Or.inr h2
  | case2 offset hge =>
    intro o ho
    rw [forEachSectionFrom, dif_neg hge] at ho
    simp at ho

/-- Consecutive yielded offsets are strictly increasing. -/
theorem forEachSectionFrom_chain (s : ModuleLineStreamModel) (offset : Nat) :
    List.Chain' (fun a b => a < b) (forEachSectionFrom s offset) := by
  induction offset using forEachSectionFrom.induct s with
  | case1 offset hlt ih =>
    rw [forEachSectionFrom, dif_pos hlt]
    refine List.chain'_cons'.mpr ⟨?_, ih⟩
    intro b hb
    have hmem := List.mem_of_mem_head? hb
    have h2 := forEachSectionFrom_mem_lower s _ b hmem
    have h3 := le_roundUpToMultiple4 (offset + 8 + (s.headerAt offset).size)
    omega
  | case2 offset hge =>
    rw [forEachSectionFrom, dif_neg hge]
    exact List.chain'_nil

/-- Offsets yielded after the first are all rounded-up values. -/
theorem forEachSectionFrom_tail_aligned (s : ModuleLineStreamModel) (offset : Nat) :
    ∀ o ∈ (forEachSectionFrom s offset).tail, o % 4 = 0 := by
  by_cases hlt : offset < s.streamSize
  · rw [forEachSectionFrom, dif_pos hlt]
    intro o ho
    simp only [List.tail_cons] at ho
    rcases forEachSectionFrom_mem_shape s _ o ho with h1 | h1
    · rw [h1]
      exact roundUpToMultiple4_mod _
    · exact h1
  · rw [forEachSectionFrom, dif_neg hlt]
    intro o ho
    simp at ho

/-- A tiling run makes the fuelled loop stop exactly at `headerEnd` once the
fuel is large enough. -/
theorem tilesTo_iterate {step : Nat → Nat} {headerEnd : Nat} :
    ∀ {offset : Nat}, TilesTo step headerEnd offset →
      ∃ f, ∀ g, f ≤ g → iterateWhileLt step headerEnd g offset = headerEnd := by
  intro offset h
  induction h with
  | done =>
    refine ⟨0, fun g _ => ?_⟩
    cases g with
    | zero => rfl
    | succ g => rw [iterateWhileLt, if_neg (lt_irrefl headerEnd)]
  | step hlt htail ih =>
    obtain ⟨f, hf⟩ := ih
    refine ⟨f + 1, fun g hg => ?_⟩
    cases g with
    | zero => omega
    | succ g =>
      rw [iterateWhileLt, if_pos hlt]
      exact hf g (by omega)

/-- C1, corrected: the claim's bound `current + sizeof(DebugSubsectionHeader)
+ header.size <= stream.size()` fails on the code. ForEachSection checks only
`offset < m_stream.GetSize()` before yielding; on a 12-byte stream whose
header at offset 0 claims size 100, the section is yielded at offset 0 yet
0 + 8 + 100 > 12. -/
theorem forEachSection_overrun_cex :
    forEachSection exStreamA = [0] ∧
    ¬ (0 + 8 + (exStreamA.headerAt 0).size ≤ exStreamA.streamSize) := by
  constructor
  · simp [forEachSection, forEachSectionFrom, exStreamA, RoundUpToMultiple]
  · decide

/-- C1 (amended): every section is yielded at an offset strictly below
`stream.size()` — that is the only bound the code checks — and the iteration
terminates exactly when the computed offset reaches or exceeds
`stream.size()`: starting ForEachSection's loop at any offset yields nothing
iff that offset is at or past the stream size. -/
theorem forEachSection_yield_lt_size_and_termination (s : ModuleLineStreamModel) :
    (∀ o ∈ forEachSection s, o < s.streamSize) ∧
    (∀ offset : Nat, forEachSectionFrom s offset = [] ↔ s.streamSize ≤ offset) := by
  constructor
  · exact forEachSectionFrom_mem_lt s s.c13LineInfoOffset
  · intro offset
    constructor
    · intro h
      by_contra hc
      rw [forEachSectionFrom, dif_pos (by omega)] at h
      simp at h
    · intro h
      rw [forEachSectionFrom, dif_neg (by omega)]

/-- C1 witness: the amended theorem applied to the concrete stream
`exStreamA` at the yielded offset 0 and at the exhausted offset 50. -/
theorem forEachSection_yield_lt_size_witness :
    0 < exStreamA.streamSize ∧
    (forEachSectionFrom exStreamA 50 = [] ↔ exStreamA.streamSize ≤ 50) :=
  ⟨(forEachSection_yield_lt_size_and_termination exStreamA).1 0
      (by simp [forEachSection, forEachSectionFrom, exStreamA, RoundUpToMultiple]),
   (forEachSection_yield_lt_size_and_termination exStreamA).2 50⟩

/-- C7, corrected: the claim that every yielded start offset, including the
first, is 4-byte aligned fails on the code. The first yield happens at
`m_c13LineInfoOffset` unchanged; a ModuleLineStream whose c13LineInfoOffset
is 2 yields its first (and only) section at the unaligned offset 2. -/
theorem forEachSection_unaligned_first_cex :
    forEachSection exStreamB = [2] ∧ 2 % 4 ≠ 0 := by
  constructor
  · simp [forEachSection, forEachSectionFrom, exStreamB, RoundUpToMultiple]
  · decide

/-- C7 (amended): within any single ForEachSection traversal the yielded
start offsets are strictly increasing, every yielded start after the first is
4-byte aligned, and when `c13LineInfoOffset` is itself 4-byte aligned every
yielded start (including the first) is 4-byte aligned. -/
theorem forEachSection_increasing_aligned (s : ModuleLineStreamModel) :
    List.Chain' (fun a b => a < b) (forEachSection s) ∧
    (∀ o ∈ (forEachSection s).tail, o % 4 = 0) ∧
    (s.c13LineInfoOffset % 4 = 0 → ∀ o ∈ forEachSection s, o % 4 = 0) := by
  refine ⟨forEachSectionFrom_chain s s.c13LineInfoOffset,
    forEachSectionFrom_tail_aligned s s.c13LineInfoOffset, ?_⟩
  intro hal o ho
  rcases forEachSectionFrom_mem_shape s s.c13LineInfoOffset o ho with h1 | h1
  · rw [h1]
    exact hal
  · exact h1

/-- C7 witness: the amended theorem applied to the stream `exStreamD`, whose
traversal yields offsets 0 and 8. -/
theorem forEachSection_increasing_aligned_witness :
    List.Chain' (fun a b => a < b) (forEachSection exStreamD) ∧ 8 % 4 = 0 :=
  ⟨(forEachSection_increasing_aligned exStreamD).1,
   (forEachSection_increasing_aligned exStreamD).2.1 8
      (by simp [forEachSection, forEachSectionFrom, exStreamD, RoundUpToMultiple])⟩

/-- C9: when the ModuleLineStream's `c13LineInfoOffset` is at or past the
size of its coalesced stream, ForEachSection's loop guard is false on entry:
the functor is invoked zero times and no data is read. -/
theorem forEachSection_empty_of_offset_ge_size (s : ModuleLineStreamModel)
    (h : s.streamSize ≤ s.c13LineInfoOffset) :
    forEachSection s = [] := by
  rw [forEachSection, forEachSectionFrom, dif_neg (by omega)]

/-- C9 witness: the theorem applied to `exStreamE` (stream size 5, starting
offset 7). -/
theorem forEachSection_empty_of_offset_ge_size_witness :
    exStreamE.streamSize ≤ exStreamE.c13LineInfoOffset ∧ forEachSection exStreamE = [] :=
  ⟨by decide, forEachSection_empty_of_offset_ge_size exStreamE (by decide)⟩

/-- C5: on well-formed input — the blocks of an S_LINES section tile it from
the lines-blocks start to `headerEnd`, and the checksum entries of an
S_FILECHECKSUMS section tile it from the checksums start to its `headerEnd`
— both ForEachLinesBlock and ForEachFileChecksum stop with their offset
exactly equal to `RoundUpToMultiple(sectionOffset + 8 + header.size, 4)`,
neither short of it nor past it, once given enough fuel (the C++ loops have
no fuel; fuel beyond the needed number of iterations does not change the
result). -/
theorem walkers_terminate_at_sectionHeaderEnd
    (blockSizeAt checksumSizeAt : Nat → Nat)
    (so1 hs1 lhSize fchSize so2 hs2 : Nat)
    (h1 : TilesTo (linesBlockStep blockSizeAt) (sectionHeaderEnd so1 hs1)
      (linesBlocksStart so1 lhSize))
    (h2 : TilesTo (fileChecksumStep fchSize checksumSizeAt) (sectionHeaderEnd so2 hs2)
      (checksumsStart so2)) :
    (∃ f, ∀ g, f ≤ g →
      forEachLinesBlockFinal blockSizeAt so1 hs1 lhSize g = sectionHeaderEnd so1 hs1) ∧
    (∃ f, ∀ g, f ≤ g →
      forEachFileChecksumFinal checksumSizeAt fchSize so2 hs2 g = sectionHeaderEnd so2 hs2) :=
  ⟨tilesTo_iterate h1, tilesTo_iterate h2⟩

/-- C5 witness: a lines section at offset 0 with header size 16 and a single
block of size 4 (start 20, end 24), and a checksum section at offset 0 with
header size 8 and a single entry of checksum size 2 under a 6-byte
FileChecksumHeader (start 8, end 16). -/
theorem walkers_terminate_at_sectionHeaderEnd_witness :
    (∃ f, ∀ g, f ≤ g →
      forEachLinesBlockFinal (fun _ => 4) 0 16 12 g = sectionHeaderEnd 0 16) ∧
    (∃ f, ∀ g, f ≤ g →
      forEachFileChecksumFinal (fun _ => 2) 6 0 8 g = sectionHeaderEnd 0 8) := by
  refine walkers_terminate_at_sectionHeaderEnd (fun _ => 4) (fun _ => 2) 0 16 12 6 0 8 ?_ ?_
  · show TilesTo (linesBlockStep fun _ => 4) 24 20
    refine TilesTo.step (by decide) ?_
    have h : linesBlockStep (fun _ => 4) 20 = 24 := by decide
    rw [h]
    exact TilesTo.done
  · show TilesTo (fileChecksumStep 6 fun _ => 2) 16 8
    refine TilesTo.step (by decide) ?_
    have h : fileChecksumStep 6 (fun _ => 2) 8 = 16 := by decide
    rw [h]
    exact TilesTo.done

/-- C6, corrected: when lines-block iteration stops past the computed end,
no MalformedSubsection error reaches the caller. On a lines section at
offset 0 with header size 16 and a single block of size 8, the loop stops
at 28 while the computed end is 24; the walker still returns normally — the
only reaction is the PDB_ASSERT condition `offset == headerEnd` evaluating
to false (an abort in debug builds, nothing in release builds). -/
theorem walker_mismatch_no_error_cex :
    forEachLinesBlockFinal (fun _ => 8) 0 16 12 2 = 28 ∧
    sectionHeaderEnd 0 16 = 24 ∧
    forEachLinesBlockAssertOk (fun _ => 8) 0 16 12 2 = false :=
  ⟨rfl, rfl, rfl⟩

/-- C6 (amended): on a terminal offset different from the computed end the
walkers do not surface a MalformedSubsection error to the caller; they only
evaluate the PDB_ASSERT condition `offset == headerEnd`, which is false
exactly when the spec's error-surfacing walker (modelled from spec 7) would
return a MalformedSubsection error carrying the offending final offset. -/
theorem walker_assert_iff_mismatch (blockSizeAt checksumSizeAt : Nat → Nat)
    (so1 hs1 lhSize fchSize so2 hs2 fuel1 fuel2 : Nat) :
    (forEachLinesBlockAssertOk blockSizeAt so1 hs1 lhSize fuel1 = false ↔
      forEachLinesBlockSurfacing blockSizeAt so1 hs1 lhSize fuel1 =
        Except.error (forEachLinesBlockFinal blockSizeAt so1 hs1 lhSize fuel1)) ∧
    (forEachFileChecksumAssertOk checksumSizeAt fchSize so2 hs2 fuel2 = false ↔
      forEachFileChecksumSurfacing checksumSizeAt fchSize so2 hs2 fuel2 =
        Except.error (forEachFileChecksumFinal checksumSizeAt fchSize so2 hs2 fuel2)) := by
  constructor
  · by_cases h : forEachLinesBlockFinal blockSizeAt so1 hs1 lhSize fuel1 =
        sectionHeaderEnd so1 hs1
    · simp [forEachLinesBlockAssertOk, forEachLinesBlockSurfacing, h]
    · simp [forEachLinesBlockAssertOk, forEachLinesBlockSurfacing, h]
  · by_cases h : forEachFileChecksumFinal checksumSizeAt fchSize so2 hs2 fuel2 =
        sectionHeaderEnd so2 hs2
    · simp [forEachFileChecksumAssertOk, forEachFileChecksumSurfacing, h]
    · simp [forEachFileChecksumAssertOk, forEachFileChecksumSurfacing, h]

/-- C6 witness: the amended theorem applied to the mismatching lines section
(final 28 against end 24) and a mismatching checksum section. -/
theorem walker_assert_iff_mismatch_witness :
    (forEachLinesBlockAssertOk (fun _ => 8) 0 16 12 2 = false ↔
      forEachLinesBlockSurfacing (fun _ => 8) 0 16 12 2 =
        Except.error (forEachLinesBlockFinal (fun _ => 8) 0 16 12 2)) ∧
    (forEachFileChecksumAssertOk (fun _ => 7) 6 0 8 2 = false ↔
      forEachFileChecksumSurfacing (fun _ => 7) 6 0 8 2 =
        Except.error (forEachFileChecksumFinal (fun _ => 7) 6 0 8 2)) :=
  walker_assert_iff_mismatch (fun _ => 8) (fun _ => 7) 0 16 12 6 0 8 2 2

/-- C2: RawFile construction materializes the stream directory as a
CoalescedStream of total size `directoryBlockCount * blockSize`, reads
`streamCount` from directory byte offset 0, takes `streamSizes` as the uint32
array starting at byte offset 4, and places `m_streamBlocks[i]` at the byte
offset obtained from the cursor start `4 + 4 * streamCount` by advancing
`ConvertSizeToBlockCount(streamSizes[j], blockSize)` uint32 entries (4 bytes
each) for every stream `j < i`. -/
theorem rawFile_ctor_directory_layout (dir : Nat → Nat) (blockSize dsz i : Nat) :
    directoryStreamSize dsz blockSize = ConvertSizeToBlockCount dsz blockSize * blockSize ∧
    dirStreamCount dir = dir 0 ∧
    dirStreamSizes dir i = dir (4 + 4 * i) ∧
    streamBlocksPtr dir blockSize i =
      4 + 4 * dir 0 +
        4 * (Finset.range i).sum
          (fun j => ConvertSizeToBlockCount (dir (4 + 4 * j)) blockSize) := by
  refine ⟨rfl, rfl, rfl, ?_⟩
  induction i with
  | zero => simp [streamBlocksPtr]
  | succ k ih =>
    simp only [streamBlocksPtr]
    rw [ih, Finset.sum_range_succ]
    ring

/-- C4: a directory size entry equal to the absent-stream sentinel 0xFFFFFFFF
advances the block-index cursor by zero uint32 entries under the uint32
arithmetic of ConvertSizeToBlockCount — `(0xFFFFFFFF + blockSize - 1)` wraps
to `blockSize - 2`, whose quotient by `blockSize` is 0 — so the next stream's
block-index row pointer equals that of stream `i`. Requires `2 ≤ blockSize`
(the spec's block sizes are 512..4096) and `blockSize` a uint32. -/
theorem absent_stream_advances_zero (dir : Nat → Nat) (blockSize i : Nat)
    (hb2 : 2 ≤ blockSize) (hb32 : blockSize < 4294967296)
    (habs : dir (4 + 4 * i) = 4294967295) :
    ConvertSizeToBlockCount 4294967295 blockSize = 0 ∧
    streamBlocksPtr dir blockSize (i + 1) = streamBlocksPtr dir blockSize i := by
  have h0 : ConvertSizeToBlockCount 4294967295 blockSize = 0 := by
    unfold ConvertSizeToBlockCount
    have h1 : 4294967295 + blockSize - 1 = 4294967296 + (blockSize - 2) := by omega
    rw [h1]
    have h2 : (4294967296 + (blockSize - 2)) % 4294967296 = blockSize - 2 := by omega
    rw [h2]
    exact Nat.div_eq_of_lt (by omega)
  refine ⟨h0, ?_⟩
  simp only [streamBlocksPtr, habs, h0]
  omega

/-- C4 witness: the theorem applied to a directory whose every entry is the
sentinel, with blockSize 512 and stream index 0. -/
theorem absent_stream_advances_zero_witness :
    ConvertSizeToBlockCount 4294967295 512 = 0 ∧
    streamBlocksPtr (fun _ => 4294967295) 512 1 = streamBlocksPtr (fun _ => 4294967295) 512 0 :=
  absent_stream_advances_zero (fun _ => 4294967295) 512 0 (by decide) (by decide) rfl

/-- C3: RawFile::open fails at exactly three points, each surfaced as a
distinct error kind — insufficient image length, magic mismatch (the
distinguished "not a PDB" error), directory-bounds violation — and succeeds
exactly when none of the three conditions holds, returning a RawFileOpened
whose accessors are plain total functions. -/
theorem rawFileOpen_three_error_points (img : ImageModel) :
    (rawFileOpen img = Except.error PdbErrorKind.imageTooSmall ↔
      imageTooSmallB img = true) ∧
    (rawFileOpen img = Except.error PdbErrorKind.invalidSuperBlockMagic ↔
      (imageTooSmallB img = false ∧ magicOkB img = false)) ∧
    (rawFileOpen img = Except.error PdbErrorKind.invalidDirectoryBounds ↔
      (imageTooSmallB img = false ∧ magicOkB img = true ∧ dirBoundsOkB img = false)) ∧
    ((∃ f, rawFileOpen img = Except.ok f) ↔
      (imageTooSmallB img = false ∧ magicOkB img = true ∧ dirBoundsOkB img = true)) := by
  unfold rawFileOpen
  cases h1 : imageTooSmallB img <;> cases h2 : magicOkB img <;> cases h3 : dirBoundsOkB img <;>
    simp

/-- C3 witness: the theorem applied to the 10-byte all-zero image, which is
rejected as too small. -/
theorem rawFileOpen_three_error_points_witness :
    (rawFileOpen imgEx = Except.error PdbErrorKind.imageTooSmall ↔
      imageTooSmallB imgEx = true) ∧
    (rawFileOpen imgEx = Except.error PdbErrorKind.invalidSuperBlockMagic ↔
      (imageTooSmallB imgEx = false ∧ magicOkB imgEx = false)) ∧
    (rawFileOpen imgEx = Except.error PdbErrorKind.invalidDirectoryBounds ↔
      (imageTooSmallB imgEx = false ∧ magicOkB imgEx = true ∧ dirBoundsOkB imgEx = false)) ∧
    ((∃ f, rawFileOpen imgEx = Except.ok f) ↔
      (imageTooSmallB imgEx = false ∧ magicOkB imgEx = true ∧ dirBoundsOkB imgEx = true)) :=
  rawFileOpen_three_error_points imgEx

/-- C8, corrected: the claimed identity `convertSizeToBlockCount(n*b + 1, b)
== n + 1` fails under the function's uint32 arithmetic even for a
representable argument: with b = 512 and n = 8388607, n*b + 1 = 4294966785
fits in 32 bits, but the internal addition of b - 1 wraps to 0, so the result
is 0 rather than 8388608. -/
theorem convertSizeToBlockCount_wrap_cex :
    4294966785 = 8388607 * 512 + 1 ∧
    ConvertSizeToBlockCount 4294966785 512 = 0 ∧
    (0 : Nat) ≠ 8388607 + 1 :=
  ⟨rfl, rfl, by decide⟩

/-- C8 (amended): ConvertSizeToBlockCount equals
`(size + blockSize - 1) / blockSize` with `size = 0` giving 0, and
`convertSizeToBlockCount(n*b, b) = n` and
`convertSizeToBlockCount(n*b + 1, b) = n + 1`, for `1 ≤ b < 2^32` whenever
the internal 32-bit addition does not wrap (`size + b - 1 < 2^32`,
respectively `n*b + b < 2^32`). -/
theorem convertSizeToBlockCount_identities (blockSize n sz : Nat)
    (hb1 : 1 ≤ blockSize) (hb32 : blockSize < 4294967296)
    (hsz : sz + blockSize - 1 < 4294967296)
    (hnb : n * blockSize + blockSize < 4294967296) :
    ConvertSizeToBlockCount 0 blockSize = 0 ∧
    ConvertSizeToBlockCount sz blockSize = (sz + blockSize - 1) / blockSize ∧
    ConvertSizeToBlockCount (n * blockSize) blockSize = n ∧
    ConvertSizeToBlockCount (n * blockSize + 1) blockSize = n + 1 := by
  unfold ConvertSizeToBlockCount
  refine ⟨?_, ?_, ?_, ?_⟩
  · rw [Nat.mod_eq_of_lt (by omega)]
    exact Nat.div_eq_of_lt (by omega)
  · rw [Nat.mod_eq_of_lt hsz]
  · rw [Nat.mod_eq_of_lt (by omega)]
    have h1 : n * blockSize + blockSize - 1 = blockSize - 1 + blockSize * n := by
      have : n * blockSize = blockSize * n := Nat.mul_comm n blockSize
      omega
    rw [h1, Nat.add_mul_div_left _ _ (by omega : 0 < blockSize),
      Nat.div_eq_of_lt (by omega)]
    omega
  · rw [Nat.mod_eq_of_lt (by omega)]
    have h1 : n * blockSize + 1 + blockSize - 1 = blockSize - 1 + 1 + blockSize * n := by
      have : n * blockSize = blockSize * n := Nat.mul_comm n blockSize
      omega
    rw [h1, Nat.add_mul_div_left _ _ (by omega : 0 < blockSize)]
    have h2 : (blockSize - 1 + 1) / blockSize = 1 := by
      have h3 : blockSize - 1 + 1 = blockSize := by omega
      rw [h3]
      exact Nat.div_self (by omega)
    rw [h2]
    omega

/-- C8 witness: the amended theorem applied at blockSize 512, n = 3,
size = 7, all of which stay below 2^32. -/
theorem convertSizeToBlockCount_identities_witness :
    ConvertSizeToBlockCount 0 512 = 0 ∧
    ConvertSizeToBlockCount 7 512 = (7 + 512 - 1) / 512 ∧
    ConvertSizeToBlockCount (3 * 512) 512 = 3 ∧
    ConvertSizeToBlockCount (3 * 512 + 1) 512 = 3 + 1 :=
  convertSizeToBlockCount_identities 512 3 7 (by decide) (by decide) (by decide) (by decide)

/-- C10: move-assigning a RawFile to itself is a no-op. The guard
`this != &other` at PDB_RawFile.cpp line 61 is false, so the body — including
`PDB_DELETE_ARRAY(m_streamBlocks)` — is skipped: the object keeps every field
value and the m_streamBlocks array is not released. -/
theorem rawFile_self_move_assign_noop (addr : Nat) (s : RawFileState) :
    rawFileMoveAssign addr addr s s =
      { selfAfter := s, otherAfter := s, releasedOldBlocks := false } := by
  simp [rawFileMoveAssign]

end RawPdb
